import Mathlib

/-!
Verification of the financial-ratio analysis engine
(`calculate_ratios.py` and `interpret_ratios.py`).

Numbers are modelled as rationals (`ℚ`); the Python statement tables
(string-keyed dicts with `.get(key, 0)` access) are modelled as total
functions `String → ℚ`, where an absent field is the function returning 0.
Python dicts built by insertion are modelled as association lists
(`List (String × ℚ)`), so key presence and insertion order are preserved.
-/

/-- The four statement tables of `FinancialRatioCalculator.__init__`.
Each table maps a field name to its numeric value; Python's
`.get(field, 0)` default is folded into the function. -/
structure FinancialData where
  income_statement : String → ℚ
  balance_sheet : String → ℚ
  cash_flow : String → ℚ
  market_data : String → ℚ

/-- `FinancialRatioCalculator.safe_divide`: divide, returning `default`
(0 unless stated) when the denominator is exactly zero. -/
def safe_divide (numerator denominator : ℚ) (default : ℚ := 0) : ℚ :=
  if denominator = 0 then default else numerator / denominator

/-- `FinancialRatioCalculator.calculate_profitability_ratios`. -/
def calculate_profitability_ratios (fd : FinancialData) : List (String × ℚ) :=
  let net_income := fd.income_statement "net_income"
  let shareholders_equity := fd.balance_sheet "shareholders_equity"
  let total_assets := fd.balance_sheet "total_assets"
  let revenue := fd.income_statement "revenue"
  let cogs := fd.income_statement "cost_of_goods_sold"
  let gross_profit := revenue - cogs
  let operating_income := fd.income_statement "operating_income"
  [("roe", safe_divide net_income shareholders_equity),
   ("roa", safe_divide net_income total_assets),
   ("gross_margin", safe_divide gross_profit revenue),
   ("operating_margin", safe_divide operating_income revenue),
   ("net_margin", safe_divide net_income revenue)]

/-- `FinancialRatioCalculator.calculate_liquidity_ratios`. -/
def calculate_liquidity_ratios (fd : FinancialData) : List (String × ℚ) :=
  let current_assets := fd.balance_sheet "current_assets"
  let current_liabilities := fd.balance_sheet "current_liabilities"
  let inventory := fd.balance_sheet "inventory"
  let quick_assets := current_assets - inventory
  let cash := fd.balance_sheet "cash_and_equivalents"
  [("current_ratio", safe_divide current_assets current_liabilities),
   ("quick_ratio", safe_divide quick_assets current_liabilities),
   ("cash_ratio", safe_divide cash current_liabilities)]

/-- `FinancialRatioCalculator.calculate_leverage_ratios`. -/
def calculate_leverage_ratios (fd : FinancialData) : List (String × ℚ) :=
  let total_debt := fd.balance_sheet "total_debt"
  let shareholders_equity := fd.balance_sheet "shareholders_equity"
  let ebit := fd.income_statement "ebit"
  let interest_expense := fd.income_statement "interest_expense"
  let net_operating_income := fd.income_statement "operating_income"
  let total_debt_service :=
    interest_expense + fd.balance_sheet "current_portion_long_term_debt"
  [("debt_to_equity", safe_divide total_debt shareholders_equity),
   ("interest_coverage", safe_divide ebit interest_expense),
   ("debt_service_coverage", safe_divide net_operating_income total_debt_service)]

/-- `FinancialRatioCalculator.calculate_efficiency_ratios`.
`days_sales_outstanding` divides 365 by the `receivables_turnover`
value just computed into the same dict. -/
def calculate_efficiency_ratios (fd : FinancialData) : List (String × ℚ) :=
  let revenue := fd.income_statement "revenue"
  let total_assets := fd.balance_sheet "total_assets"
  let cogs := fd.income_statement "cost_of_goods_sold"
  let inventory := fd.balance_sheet "inventory"
  let accounts_receivable := fd.balance_sheet "accounts_receivable"
  let receivables_turnover := safe_divide revenue accounts_receivable
  [("asset_turnover", safe_divide revenue total_assets),
   ("inventory_turnover", safe_divide cogs inventory),
   ("receivables_turnover", receivables_turnover),
   ("days_sales_outstanding", safe_divide 365 receivables_turnover)]

/-- `FinancialRatioCalculator.calculate_valuation_ratios`.
`market_cap` and `enterprise_value` are local intermediates in the
source; only the keys written into the `ratios` dict appear in the
resulting association list.  `peg_ratio` is appended only when
`earnings_growth_rate > 0`. -/
def calculate_valuation_ratios (fd : FinancialData) : List (String × ℚ) :=
  let share_price := fd.market_data "share_price"
  let shares_outstanding := fd.market_data "shares_outstanding"
  let market_cap := share_price * shares_outstanding
  let net_income := fd.income_statement "net_income"
  let eps := safe_divide net_income shares_outstanding
  let book_value := fd.balance_sheet "shareholders_equity"
  let book_value_per_share := safe_divide book_value shares_outstanding
  let revenue := fd.income_statement "revenue"
  let ebitda := fd.income_statement "ebitda"
  let total_debt := fd.balance_sheet "total_debt"
  let cash := fd.balance_sheet "cash_and_equivalents"
  let enterprise_value := market_cap + total_debt - cash
  let base :=
    [("pe_ratio", safe_divide share_price eps),
     ("eps", eps),
     ("pb_ratio", safe_divide share_price book_value_per_share),
     ("book_value_per_share", book_value_per_share),
     ("ps_ratio", safe_divide market_cap revenue),
     ("ev_to_ebitda", safe_divide enterprise_value ebitda)]
  let earnings_growth := fd.market_data "earnings_growth_rate"
  if earnings_growth > 0 then
    base ++ [("peg_ratio", safe_divide (safe_divide share_price eps) (earnings_growth * 100))]
  else
    base

/-- `FinancialRatioCalculator.calculate_all_ratios`. -/
def calculate_all_ratios (fd : FinancialData) : List (String × List (String × ℚ)) :=
  [("profitability", calculate_profitability_ratios fd),
   ("liquidity", calculate_liquidity_ratios fd),
   ("leverage", calculate_leverage_ratios fd),
   ("efficiency", calculate_efficiency_ratios fd),
   ("valuation", calculate_valuation_ratios fd)]

/-!
Embedding of `interpret_ratios.py`.  Benchmark and recommendation tables
are association lists mirroring the nested Python dict literals.
-/

/-- `RatioInterpreter.BENCHMARKS`: industry → ratio name → tier name → threshold. -/
def BENCHMARKS : List (String × List (String × List (String × ℚ))) :=
  [("technology",
    [("current_ratio", [("excellent", 2.5), ("good", 1.8), ("acceptable", 1.2), ("poor", 1.0)]),
     ("debt_to_equity", [("excellent", 0.3), ("good", 0.5), ("acceptable", 1.0), ("poor", 2.0)]),
     ("roe", [("excellent", 0.25), ("good", 0.18), ("acceptable", 0.12), ("poor", 0.08)]),
     ("gross_margin", [("excellent", 0.70), ("good", 0.50), ("acceptable", 0.35), ("poor", 0.20)]),
     ("pe_ratio", [("undervalued", 15), ("fair", 25), ("growth", 35), ("expensive", 50)])]),
   ("retail",
    [("current_ratio", [("excellent", 2.0), ("good", 1.5), ("acceptable", 1.0), ("poor", 0.8)]),
     ("debt_to_equity", [("excellent", 0.5), ("good", 0.8), ("acceptable", 1.5), ("poor", 2.5)]),
     ("roe", [("excellent", 0.20), ("good", 0.15), ("acceptable", 0.10), ("poor", 0.05)]),
     ("gross_margin", [("excellent", 0.40), ("good", 0.30), ("acceptable", 0.20), ("poor", 0.10)]),
     ("pe_ratio", [("undervalued", 12), ("fair", 18), ("growth", 25), ("expensive", 35)])]),
   ("financial",
    [("current_ratio", [("excellent", 1.5), ("good", 1.2), ("acceptable", 1.0), ("poor", 0.8)]),
     ("debt_to_equity", [("excellent", 1.0), ("good", 2.0), ("acceptable", 4.0), ("poor", 6.0)]),
     ("roe", [("excellent", 0.15), ("good", 0.12), ("acceptable", 0.08), ("poor", 0.05)]),
     ("pe_ratio", [("undervalued", 10), ("fair", 15), ("growth", 20), ("expensive", 30)])]),
   ("manufacturing",
    [("current_ratio", [("excellent", 2.2), ("good", 1.7), ("acceptable", 1.3), ("poor", 1.0)]),
     ("debt_to_equity", [("excellent", 0.4), ("good", 0.7), ("acceptable", 1.2), ("poor", 2.0)]),
     ("roe", [("excellent", 0.18), ("good", 0.14), ("acceptable", 0.10), ("poor", 0.06)]),
     ("gross_margin", [("excellent", 0.35), ("good", 0.25), ("acceptable", 0.18), ("poor", 0.12)]),
     ("pe_ratio", [("undervalued", 14), ("fair", 20), ("growth", 28), ("expensive", 40)])]),
   ("healthcare",
    [("current_ratio", [("excellent", 2.3), ("good", 1.8), ("acceptable", 1.4), ("poor", 1.0)]),
     ("debt_to_equity", [("excellent", 0.3), ("good", 0.6), ("acceptable", 1.0), ("poor", 1.8)]),
     ("roe", [("excellent", 0.22), ("good", 0.16), ("acceptable", 0.11), ("poor", 0.07)]),
     ("gross_margin", [("excellent", 0.65), ("good", 0.45), ("acceptable", 0.30), ("poor", 0.20)]),
     ("pe_ratio", [("undervalued", 18), ("fair", 28), ("growth", 40), ("expensive", 55)])])]

/-- `RatioInterpreter._get_general_benchmarks`. -/
def general_benchmarks : List (String × List (String × ℚ)) :=
  [("current_ratio", [("excellent", 2.0), ("good", 1.5), ("acceptable", 1.0), ("poor", 0.8)]),
   ("debt_to_equity", [("excellent", 0.5), ("good", 1.0), ("acceptable", 1.5), ("poor", 2.5)]),
   ("roe", [("excellent", 0.20), ("good", 0.15), ("acceptable", 0.10), ("poor", 0.05)]),
   ("gross_margin", [("excellent", 0.40), ("good", 0.30), ("acceptable", 0.20), ("poor", 0.10)]),
   ("pe_ratio", [("undervalued", 15), ("fair", 22), ("growth", 30), ("expensive", 45)])]

/-- State of a `RatioInterpreter` instance after `__init__`. -/
structure RatioInterpreter where
  industry : String
  benchmarks : List (String × List (String × ℚ))

/-- Python's `str.lower`, modelled per character; `Char.toLower` covers
the ASCII range, which covers every industry name in the catalog. -/
def str_lower (s : String) : String :=
  ⟨s.data.map Char.toLower⟩

/-- `RatioInterpreter.__init__(industry)`: lower-case the industry and
resolve the band set, falling back to the general benchmarks. -/
def mkRatioInterpreter (industry : String) : RatioInterpreter :=
  let ind := str_lower industry
  { industry := ind,
    benchmarks := (BENCHMARKS.lookup ind).getD general_benchmarks }

/-- Tier access `benchmark["excellent"]` etc.  In the source a missing
tier key would raise `KeyError`; every band in the static tables above
defines the tier names its branch reads, so the `getD 0` default is
never taken on reachable data. -/
def tier (benchmark : List (String × ℚ)) (name : String) : ℚ :=
  (benchmark.lookup name).getD 0

/-- Result dict of `RatioInterpreter.interpret_ratio`. -/
structure Interpretation where
  value : ℚ
  rating : String
  message : String
  recommendation : String
  benchmark_comparison : List (String × ℚ)
deriving DecidableEq, Repr

/-- The static `recommendations` table of `RatioInterpreter._get_recommendation`. -/
def RECOMMENDATIONS : List (String × List (String × String)) :=
  [("current_ratio",
    [("Poor", "Consider improving working capital management, reducing short-term debt, or increasing liquid assets"),
     ("Acceptable", "Monitor liquidity closely and consider building additional cash reserves"),
     ("Good", "Maintain current liquidity management practices"),
     ("Excellent", "Strong liquidity position - consider productive use of excess cash")]),
   ("debt_to_equity",
    [("Poor", "High leverage increases financial risk - consider debt reduction strategies"),
     ("Acceptable", "Monitor debt levels and ensure adequate interest coverage"),
     ("Good", "Balanced capital structure - maintain current approach"),
     ("Excellent", "Conservative leverage - may consider strategic use of debt for growth")]),
   ("roe",
    [("Poor", "Focus on improving operational efficiency and profitability"),
     ("Acceptable", "Explore opportunities to enhance returns through operational improvements"),
     ("Good", "Solid returns - continue current strategies"),
     ("Excellent", "Outstanding performance - ensure sustainability of high returns")]),
   ("pe_ratio",
    [("Potentially Undervalued", "May present buying opportunity if fundamentals are solid"),
     ("Fair Value", "Reasonably priced relative to industry peers"),
     ("Growth Premium", "Ensure growth prospects justify premium valuation"),
     ("Expensive", "Consider valuation risk - ensure fundamentals support high multiple")])]

/-- `RatioInterpreter._get_recommendation`. -/
def get_recommendation (ratio_name rating : String) : String :=
  match RECOMMENDATIONS.lookup ratio_name with
  | some table =>
    match table.lookup rating with
    | some r => r
    | none => "Continue monitoring this metric"
  | none => "Continue monitoring this metric"

/-- `RatioInterpreter.interpret_ratio`: the dict starts as
value / "N/A" / empty strings / empty comparison, the branches mutate
rating and message, and the recommendation is filled in last from
the final rating. -/
def interpret_ratio (self : RatioInterpreter) (ratio_name : String) (value : ℚ) :
    Interpretation :=
  let base : Interpretation :=
    { value := value, rating := "N/A", message := "",
      recommendation := "", benchmark_comparison := [] }
  let itp :=
    match self.benchmarks.lookup ratio_name with
    | none => base
    | some benchmark =>
      let base := { base with benchmark_comparison := benchmark }
      if ratio_name = "current_ratio" ∨ ratio_name = "roe" ∨ ratio_name = "gross_margin" then
        -- Higher is better
        if value ≥ tier benchmark "excellent" then
          { base with rating := "Excellent",
                      message := "Performance significantly exceeds industry standards" }
        else if value ≥ tier benchmark "good" then
          { base with rating := "Good",
                      message := "Above average performance for " ++ self.industry ++ " industry" }
        else if value ≥ tier benchmark "acceptable" then
          { base with rating := "Acceptable", message := "Meets industry standards" }
        else
          { base with rating := "Poor",
                      message := "Below industry standards - attention needed" }
      else if ratio_name = "debt_to_equity" then
        -- Lower is better
        if value ≤ tier benchmark "excellent" then
          { base with rating := "Excellent", message := "Very conservative capital structure" }
        else if value ≤ tier benchmark "good" then
          { base with rating := "Good", message := "Healthy leverage level" }
        else if value ≤ tier benchmark "acceptable" then
          { base with rating := "Acceptable", message := "Moderate leverage" }
        else
          { base with rating := "Poor", message := "High leverage - potential risk" }
      else if ratio_name = "pe_ratio" then
        -- Context-dependent
        if value > 0 then
          if value < tier benchmark "undervalued" then
            { base with rating := "Potentially Undervalued",
                        message := "Trading below typical " ++ self.industry ++ " multiples" }
          else if value < tier benchmark "fair" then
            { base with rating := "Fair Value", message := "In line with industry averages" }
          else if value < tier benchmark "growth" then
            { base with rating := "Growth Premium",
                        message := "Market pricing in growth expectations" }
          else
            { base with rating := "Expensive",
                        message := "High valuation relative to industry" }
        else base
      else base
  { itp with recommendation := get_recommendation ratio_name itp.rating }

/-- One-decimal rendering of a rational, used where the source formats a
float with `:.1f`.  (Python rounds the binary float half-to-even; on the
exact rationals here we use the standard `round`, which can differ from
the float result only in the last digit on exact .x5 ties.) -/
def fmt1 (q : ℚ) : String :=
  let n : ℤ := round (q * 10)
  let a := n.natAbs
  (if n < 0 then "-" else "") ++ toString (a / 10) ++ "." ++ toString (a % 10)

/-- The two shapes of dict returned by `RatioInterpreter.analyze_trend`:
fewer than two values yields only `trend` and `message` keys (no
numeric fields); otherwise `trend`, `change`, `pct_change`, `message`
and the zipped `values` are present. -/
inductive TrendResult where
  | insufficient (trend message : String)
  | computed (trend : String) (change pct_change : ℚ) (message : String)
      (values : List (String × ℚ))
deriving DecidableEq, Repr

/-- The `trend` entry of either result shape. -/
def TrendResult.trendLabel : TrendResult → String
  | .insufficient t _ => t
  | .computed t _ _ _ _ => t

/-- The `pct_change` entry, when the result has one. -/
def TrendResult.pctChange : TrendResult → Option ℚ
  | .insufficient _ _ => none
  | .computed _ _ p _ _ => some p

/-- The `change` entry, when the result has one. -/
def TrendResult.changeValue : TrendResult → Option ℚ
  | .insufficient _ _ => none
  | .computed _ c _ _ _ => some c

/-- `RatioInterpreter.analyze_trend`.  `values[0]` and `values[-1]` are
modelled with `headD`/`getLastD`; the defaults are unreachable because
the list has length ≥ 2 on that branch.  Likewise `periods[0]` and
`periods[-1]` (an empty `periods` would raise in the source only inside
the message f-string). -/
def analyze_trend (ratio_name : String) (values : List ℚ) (periods : List String) :
    TrendResult :=
  if values.length < 2 then
    .insufficient "Insufficient data" "Need at least 2 periods for trend analysis"
  else
    let first_value := values.headD 0
    let last_value := values.getLastD 0
    let change := last_value - first_value
    let pct_change := if first_value ≠ 0 then (change / |first_value|) * 100 else 0
    let trend :=
      if |pct_change| < 5 then "Stable"
      else if pct_change > 0 then
        if ratio_name ≠ "debt_to_equity" then "Improving" else "Deteriorating"
      else
        if ratio_name ≠ "debt_to_equity" then "Deteriorating" else "Improving"
    .computed trend change pct_change
      (ratio_name ++ " has " ++ (if change > 0 then "increased" else "decreased") ++
        " by " ++ fmt1 |pct_change| ++ "% from " ++ periods.headD "" ++ " to " ++
        periods.getLastD "")
      (periods.zip values)

/-!
Embedding of `_assess_overall_health`.  Its input `current_analysis` is
the nested dict category → ratio name → interpretation dict; every entry
produced by the pipeline is an `Interpretation` and therefore carries a
`rating` key, so the source's `if "rating" in ratio_analysis` guard is
always true on this model.
-/

/-- The nested `current_analysis` mapping. -/
def CurrentAnalysis : Type := List (String × List (String × Interpretation))

/-- The rating-collection loop of `_assess_overall_health`. -/
def collect_ratings (current_analysis : CurrentAnalysis) : List String :=
  current_analysis.flatMap (fun c => c.2.map (fun r => r.2.rating))

/-- The `score_map` dict of `_assess_overall_health`. -/
def SCORE_MAP : List (String × ℚ) :=
  [("Excellent", 4), ("Good", 3), ("Acceptable", 2), ("Poor", 1),
   ("Fair Value", 3), ("Potentially Undervalued", 3),
   ("Growth Premium", 2), ("Expensive", 1)]

/-- `score_map.get(rating, 2)`. -/
def rating_score (rating : String) : ℚ :=
  (SCORE_MAP.lookup rating).getD 2

/-- The `scores` list of `_assess_overall_health`. -/
def health_scores (current_analysis : CurrentAnalysis) : List ℚ :=
  (collect_ratings current_analysis).map rating_score

/-- `avg_score = sum(scores) / len(scores) if scores else 0`. -/
def health_avg (current_analysis : CurrentAnalysis) : ℚ :=
  let scores := health_scores current_analysis
  if scores.length ≠ 0 then scores.sum / scores.length else 0

/-- Result dict of `_assess_overall_health`. -/
structure HealthAssessment where
  status : String
  message : String
  score : String
deriving DecidableEq, Repr

/-- `_assess_overall_health`. -/
def assess_overall_health (current_analysis : CurrentAnalysis) : HealthAssessment :=
  let avg_score := health_avg current_analysis
  if avg_score ≥ 3.5 then
    { status := "Excellent",
      message := "Company shows strong financial health across most metrics",
      score := fmt1 avg_score ++ "/4.0" }
  else if avg_score ≥ 2.5 then
    { status := "Good",
      message := "Overall healthy financial position with some areas for improvement",
      score := fmt1 avg_score ++ "/4.0" }
  else if avg_score ≥ 1.5 then
    { status := "Fair",
      message := "Mixed financial indicators - attention needed in several areas",
      score := fmt1 avg_score ++ "/4.0" }
  else
    { status := "Poor",
      message := "Significant financial challenges requiring immediate attention",
      score := fmt1 avg_score ++ "/4.0" }

/-- An all-zero statement record: every field of every table absent
(hence 0). -/
def fd0 : FinancialData :=
  ⟨fun _ => 0, fun _ => 0, fun _ => 0, fun _ => 0⟩

/-- The sample statement data of the module's `__main__` block. -/
def sample_data : FinancialData where
  income_statement := fun f =>
    if f = "revenue" then 1000000
    else if f = "cost_of_goods_sold" then 600000
    else if f = "operating_income" then 200000
    else if f = "ebit" then 180000
    else if f = "ebitda" then 250000
    else if f = "interest_expense" then 20000
    else if f = "net_income" then 150000
    else 0
  balance_sheet := fun f =>
    if f = "total_assets" then 2000000
    else if f = "current_assets" then 800000
    else if f = "cash_and_equivalents" then 200000
    else if f = "accounts_receivable" then 150000
    else if f = "inventory" then 250000
    else if f = "current_liabilities" then 400000
    else if f = "total_debt" then 500000
    else if f = "current_portion_long_term_debt" then 50000
    else if f = "shareholders_equity" then 1500000
    else 0
  cash_flow := fun f =>
    if f = "operating_cash_flow" then 180000
    else if f = "investing_cash_flow" then -100000
    else if f = "financing_cash_flow" then -50000
    else 0
  market_data := fun f =>
    if f = "share_price" then 50
    else if f = "shares_outstanding" then 100000
    else if f = "earnings_growth_rate" then 1/10
    else 0

/-- The score map asserted by claim C8, written from the claim's own
enumeration (Excellent→4, Good→3, Acceptable→2, Poor→1, Fair Value→3,
Potentially Undervalued→3, every other rating→2), for comparison with
the source's `SCORE_MAP`. -/
def claim_rating_score (rating : String) : ℚ :=
  if rating = "Excellent" then 4
  else if rating = "Good" then 3
  else if rating = "Acceptable" then 2
  else if rating = "Poor" then 1
  else if rating = "Fair Value" then 3
  else if rating = "Potentially Undervalued" then 3
  else 2

/-- The average score under claim C8's map. -/
def claim_health_avg (current_analysis : CurrentAnalysis) : ℚ :=
  let scores := (collect_ratings current_analysis).map claim_rating_score
  if scores.length ≠ 0 then scores.sum / scores.length else 0

/-- The score map of the amended claim C8, spelled out rating by rating:
the source's full `score_map` (including Growth Premium→2 and
Expensive→1) with default 2 for unmapped ratings. -/
def amended_rating_score (rating : String) : ℚ :=
  if rating = "Excellent" then 4
  else if rating = "Good" then 3
  else if rating = "Acceptable" then 2
  else if rating = "Poor" then 1
  else if rating = "Fair Value" then 3
  else if rating = "Potentially Undervalued" then 3
  else if rating = "Growth Premium" then 2
  else if rating = "Expensive" then 1
  else 2

/-!
Claim theorems.
-/

/-- Claim C1: for every input statement data, every ratio of §4.1 whose
formula's denominator evaluates to exactly 0 is the default 0.0 — not an
exception or infinity — including the chained days_sales_outstanding
ratio, which divides 365 by the previously computed receivables_turnover
and is 0 whenever that turnover is 0. -/
theorem C1_zero_denominator_default (fd : FinancialData) :
    (fd.balance_sheet "shareholders_equity" = 0 →
      (calculate_profitability_ratios fd).lookup "roe" = some 0 ∧
      (calculate_leverage_ratios fd).lookup "debt_to_equity" = some 0) ∧
    (fd.balance_sheet "total_assets" = 0 →
      (calculate_profitability_ratios fd).lookup "roa" = some 0 ∧
      (calculate_efficiency_ratios fd).lookup "asset_turnover" = some 0) ∧
    (fd.income_statement "revenue" = 0 →
      (calculate_profitability_ratios fd).lookup "gross_margin" = some 0 ∧
      (calculate_profitability_ratios fd).lookup "operating_margin" = some 0 ∧
      (calculate_profitability_ratios fd).lookup "net_margin" = some 0 ∧
      (calculate_valuation_ratios fd).lookup "ps_ratio" = some 0) ∧
    (fd.balance_sheet "current_liabilities" = 0 →
      (calculate_liquidity_ratios fd).lookup "current_ratio" = some 0 ∧
      (calculate_liquidity_ratios fd).lookup "quick_ratio" = some 0 ∧
      (calculate_liquidity_ratios fd).lookup "cash_ratio" = some 0) ∧
    (fd.income_statement "interest_expense" = 0 →
      (calculate_leverage_ratios fd).lookup "interest_coverage" = some 0) ∧
    (fd.income_statement "interest_expense" +
        fd.balance_sheet "current_portion_long_term_debt" = 0 →
      (calculate_leverage_ratios fd).lookup "debt_service_coverage" = some 0) ∧
    (fd.balance_sheet "inventory" = 0 →
      (calculate_efficiency_ratios fd).lookup "inventory_turnover" = some 0) ∧
    (fd.balance_sheet "accounts_receivable" = 0 →
      (calculate_efficiency_ratios fd).lookup "receivables_turnover" = some 0) ∧
    ((calculate_efficiency_ratios fd).lookup "receivables_turnover" = some 0 →
      (calculate_efficiency_ratios fd).lookup "days_sales_outstanding" = some 0) ∧
    (fd.market_data "shares_outstanding" = 0 →
      (calculate_valuation_ratios fd).lookup "eps" = some 0 ∧
      (calculate_valuation_ratios fd).lookup "book_value_per_share" = some 0) ∧
    ((calculate_valuation_ratios fd).lookup "eps" = some 0 →
      (calculate_valuation_ratios fd).lookup "pe_ratio" = some 0) ∧
    ((calculate_valuation_ratios fd).lookup "book_value_per_share" = some 0 →
      (calculate_valuation_ratios fd).lookup "pb_ratio" = some 0) ∧
    (fd.income_statement "ebitda" = 0 →
      (calculate_valuation_ratios fd).lookup "ev_to_ebitda" = some 0) := by
  refine ⟨fun h => ?_, fun h => ?_, fun h => ?_, fun h => ?_, fun h => ?_,
          fun h => ?_, fun h => ?_, fun h => ?_, fun h => ?_, fun h => ?_,
          fun h => ?_, fun h => ?_, fun h => ?_⟩
  · exact ⟨by simp [calculate_profitability_ratios, List.lookup, safe_divide, h],
           by simp [calculate_leverage_ratios, List.lookup, safe_divide, h]⟩
  · exact ⟨by simp [calculate_profitability_ratios, List.lookup, safe_divide, h],
           by simp [calculate_efficiency_ratios, List.lookup, safe_divide, h]⟩
  · refine ⟨?_, ?_, ?_, ?_⟩ <;>
      first
      | simp [calculate_profitability_ratios, List.lookup, safe_divide, h]
      | (by_cases hg : fd.market_data "earnings_growth_rate" > 0 <;>
          simp [calculate_valuation_ratios, List.lookup, safe_divide, h, hg])
  · refine ⟨?_, ?_, ?_⟩ <;> simp [calculate_liquidity_ratios, List.lookup, safe_divide, h]
  · simp [calculate_leverage_ratios, List.lookup, safe_divide, h]
  · simp [calculate_leverage_ratios, List.lookup, safe_divide, h]
  · simp [calculate_efficiency_ratios, List.lookup, safe_divide, h]
  · simp [calculate_efficiency_ratios, List.lookup, safe_divide, h]
  · simp [calculate_efficiency_ratios, List.lookup] at h ⊢
    rw [h]
    simp [safe_divide]
  · constructor <;>
      (by_cases hg : fd.market_data "earnings_growth_rate" > 0 <;>
        simp [calculate_valuation_ratios, List.lookup, safe_divide, h, hg])
  · by_cases hg : fd.market_data "earnings_growth_rate" > 0 <;>
      simp [calculate_valuation_ratios, List.lookup, hg] at h ⊢ <;>
      rw [h] <;> simp [safe_divide]
  · by_cases hg : fd.market_data "earnings_growth_rate" > 0 <;>
      simp [calculate_valuation_ratios, List.lookup, hg] at h ⊢ <;>
      rw [h] <;> simp [safe_divide]
  · by_cases hg : fd.market_data "earnings_growth_rate" > 0 <;>
      simp [calculate_valuation_ratios, List.lookup, safe_divide, h, hg]

/-- Concrete instance of C1 on the all-zero statement record: with
current_liabilities = 0 the current_ratio is 0, and the chained
days_sales_outstanding is 0 when receivables_turnover is 0. -/
theorem C1_zero_denominator_default_witness :
    (calculate_liquidity_ratios fd0).lookup "current_ratio" = some 0 ∧
    (calculate_efficiency_ratios fd0).lookup "days_sales_outstanding" = some 0 := by
  obtain ⟨h1, h2, h3, h4, h5, h6, h7, h8, h9, h10, h11, h12, h13⟩ :=
    C1_zero_denominator_default fd0
  exact ⟨(h4 rfl).1, h9 (h8 rfl)⟩

/-- Claim C2: for every ratio name and every value series of length ≥ 2,
the trend is "Stable" when the absolute percent change
((last − first) / |first| · 100, as a total rational expression, hence 0
when first = 0 exactly as in the source's guard) is below 5; otherwise a
positive percent change yields "Improving" and a negative one
"Deteriorating", with the mapping inverted exactly for debt_to_equity. -/
theorem C2_trend_classification (ratio_name : String) (values : List ℚ)
    (periods : List String) (h : 2 ≤ values.length) :
    (analyze_trend ratio_name values periods).pctChange =
      some ((values.getLastD 0 - values.headD 0) / |values.headD 0| * 100) ∧
    (analyze_trend ratio_name values periods).trendLabel =
      (if |(values.getLastD 0 - values.headD 0) / |values.headD 0| * 100| < 5 then "Stable"
       else if 0 < (values.getLastD 0 - values.headD 0) / |values.headD 0| * 100 then
         if ratio_name = "debt_to_equity" then "Deteriorating" else "Improving"
       else
         if ratio_name = "debt_to_equity" then "Improving" else "Deteriorating") := by
  have hlen : ¬ values.length < 2 := by omega
  have hpct : (if values.headD 0 ≠ 0 then
        (values.getLastD 0 - values.headD 0) / |values.headD 0| * 100 else 0)
      = (values.getLastD 0 - values.headD 0) / |values.headD 0| * 100 := by
    by_cases h0 : values.headD 0 = 0
    · rw [if_neg (not_not_intro h0), h0, abs_zero, div_zero, zero_mul]
    · rw [if_pos h0]
  simp only [analyze_trend, if_neg hlen]
  rw [hpct]
  refine ⟨rfl, ?_⟩
  by_cases hn : ratio_name = "debt_to_equity" <;>
    simp [TrendResult.trendLabel, hn, gt_iff_lt]

/-- Concrete instance of C2: debt_to_equity values [0.5, 0.8] give percent
change 60 and, by the inverted polarity, the label "Deteriorating". -/
theorem C2_trend_classification_witness :
    (analyze_trend "debt_to_equity" [1/2, 4/5] ["Q1", "Q2"]).pctChange = some 60 ∧
    (analyze_trend "debt_to_equity" [1/2, 4/5] ["Q1", "Q2"]).trendLabel =
      "Deteriorating" := by
  obtain ⟨h1, h2⟩ :=
    C2_trend_classification "debt_to_equity" [1/2, 4/5] ["Q1", "Q2"] (by decide)
  constructor
  · rw [h1]; norm_num [abs_of_pos]
  · rw [h2]; norm_num [abs_of_pos]

/-- Claim C9: for every value series with fewer than 2 values, the trend
analyzer returns the "Insufficient data" result, which carries no
computed numeric fields. -/
theorem C9_insufficient_data (ratio_name : String) (values : List ℚ)
    (periods : List String) (h : values.length < 2) :
    analyze_trend ratio_name values periods =
      .insufficient "Insufficient data" "Need at least 2 periods for trend analysis" ∧
    (analyze_trend ratio_name values periods).pctChange = none ∧
    (analyze_trend ratio_name values periods).changeValue = none := by
  have he : analyze_trend ratio_name values periods =
      .insufficient "Insufficient data" "Need at least 2 periods for trend analysis" := by
    unfold analyze_trend
    rw [if_pos h]
  exact ⟨he, by rw [he]; rfl, by rw [he]; rfl⟩

/-- Concrete instance of C9: a single-value series. -/
theorem C9_insufficient_data_witness :
    analyze_trend "roe" [42] ["Q1"] =
      .insufficient "Insufficient data" "Need at least 2 periods for trend analysis" ∧
    (analyze_trend "roe" [42] ["Q1"]).pctChange = none ∧
    (analyze_trend "roe" [42] ["Q1"]).changeValue = none :=
  C9_insufficient_data "roe" [42] ["Q1"] (by decide)

/-- Claim C10: for every series of length ≥ 2 whose first value is
exactly 0, the reported percent change is 0 and the trend is always
"Stable", whatever the last value and the ratio name. -/
theorem C10_zero_first_value_stable (ratio_name : String) (values : List ℚ)
    (periods : List String) (h : 2 ≤ values.length) (h0 : values.headD 0 = 0) :
    (analyze_trend ratio_name values periods).pctChange = some 0 ∧
    (analyze_trend ratio_name values periods).trendLabel = "Stable" := by
  have hlen : ¬ values.length < 2 := by omega
  simp only [analyze_trend, if_neg hlen]
  rw [if_neg (not_not_intro h0)]
  refine ⟨rfl, ?_⟩
  simp [TrendResult.trendLabel]

/-- Concrete instance of C10: values [0, 100] — a huge absolute increase
is still labelled "Stable" because the first value is 0. -/
theorem C10_zero_first_value_stable_witness :
    (analyze_trend "roe" [0, 100] ["Q1", "Q2"]).pctChange = some 0 ∧
    (analyze_trend "roe" [0, 100] ["Q1", "Q2"]).trendLabel = "Stable" :=
  C10_zero_first_value_stable "roe" [0, 100] ["Q1", "Q2"] (by decide) (by decide)

/-- Claim C6: the key peg_ratio is present in the valuation output iff
earnings_growth_rate is strictly positive; when present it equals
pe_ratio divided by (earnings_growth_rate · 100) under guarded division,
and otherwise (including the absent-field case, which reads as 0) the
key is absent. -/
theorem C6_peg_ratio_presence (fd : FinancialData) :
    (((calculate_valuation_ratios fd).lookup "peg_ratio").isSome = true ↔
      0 < fd.market_data "earnings_growth_rate") ∧
    (0 < fd.market_data "earnings_growth_rate" →
      (calculate_valuation_ratios fd).lookup "peg_ratio" =
        some (safe_divide
          (safe_divide (fd.market_data "share_price")
            (safe_divide (fd.income_statement "net_income")
              (fd.market_data "shares_outstanding")))
          (fd.market_data "earnings_growth_rate" * 100))) ∧
    (fd.market_data "earnings_growth_rate" ≤ 0 →
      (calculate_valuation_ratios fd).lookup "peg_ratio" = none) := by
  by_cases hg : fd.market_data "earnings_growth_rate" > 0
  · refine ⟨?_, fun _ => ?_, fun hle => absurd hg (not_lt.mpr hle)⟩ <;>
      simp [calculate_valuation_ratios, List.lookup, hg]
  · refine ⟨?_, fun hlt => absurd hlt hg, fun _ => ?_⟩ <;>
      simp [calculate_valuation_ratios, List.lookup, hg]

/-- Concrete instance of C6: the module's sample data has growth rate
0.10 > 0, so peg_ratio is present and equals the guarded quotient. -/
theorem C6_peg_ratio_presence_witness :
    (calculate_valuation_ratios sample_data).lookup "peg_ratio" =
      some (safe_divide
        (safe_divide (sample_data.market_data "share_price")
          (safe_divide (sample_data.income_statement "net_income")
            (sample_data.market_data "shares_outstanding")))
        (sample_data.market_data "earnings_growth_rate" * 100)) ∧
    ((calculate_valuation_ratios fd0).lookup "peg_ratio").isSome = false := by
  constructor
  · exact (C6_peg_ratio_presence sample_data).2.1
      (by rw [show sample_data.market_data "earnings_growth_rate" = 1/10 from rfl]; norm_num)
  · have h := (C6_peg_ratio_presence fd0).2.2
      (by rw [show fd0.market_data "earnings_growth_rate" = 0 from rfl])
    rw [h]
    rfl

/-- Claim C4 (amended): for every input the valuation category contains
the entries eps, pe_ratio, book_value_per_share, pb_ratio, ps_ratio and
ev_to_ebitda, each equal to its §4.1 formula under guarded division with
market_cap = share_price · shares_outstanding and
enterprise_value = market_cap + total_debt − cash as intermediate
quantities; market_cap and enterprise_value themselves are not emitted
as entries. -/
theorem C4_valuation_entries (fd : FinancialData) :
    (calculate_valuation_ratios fd).lookup "eps" =
      some (safe_divide (fd.income_statement "net_income")
        (fd.market_data "shares_outstanding")) ∧
    (calculate_valuation_ratios fd).lookup "pe_ratio" =
      some (safe_divide (fd.market_data "share_price")
        (safe_divide (fd.income_statement "net_income")
          (fd.market_data "shares_outstanding"))) ∧
    (calculate_valuation_ratios fd).lookup "book_value_per_share" =
      some (safe_divide (fd.balance_sheet "shareholders_equity")
        (fd.market_data "shares_outstanding")) ∧
    (calculate_valuation_ratios fd).lookup "pb_ratio" =
      some (safe_divide (fd.market_data "share_price")
        (safe_divide (fd.balance_sheet "shareholders_equity")
          (fd.market_data "shares_outstanding"))) ∧
    (calculate_valuation_ratios fd).lookup "ps_ratio" =
      some (safe_divide
        (fd.market_data "share_price" * fd.market_data "shares_outstanding")
        (fd.income_statement "revenue")) ∧
    (calculate_valuation_ratios fd).lookup "ev_to_ebitda" =
      some (safe_divide
        (fd.market_data "share_price" * fd.market_data "shares_outstanding" +
          fd.balance_sheet "total_debt" - fd.balance_sheet "cash_and_equivalents")
        (fd.income_statement "ebitda")) ∧
    (calculate_valuation_ratios fd).lookup "market_cap" = none ∧
    (calculate_valuation_ratios fd).lookup "enterprise_value" = none := by
  by_cases hg : fd.market_data "earnings_growth_rate" > 0 <;>
    refine ⟨?_, ?_, ?_, ?_, ?_, ?_, ?_, ?_⟩ <;>
    simp [calculate_valuation_ratios, List.lookup, hg]

/-- Claim C4 counterexample: on the module's own sample data the
valuation output contains no "market_cap" and no "enterprise_value"
entry, contradicting the claim that every §4.1 valuation formula has an
entry of its own. -/
theorem C4_valuation_entries_counterexample :
    (calculate_valuation_ratios sample_data).lookup "market_cap" = none ∧
    (calculate_valuation_ratios sample_data).lookup "enterprise_value" = none := by
  have hg : sample_data.market_data "earnings_growth_rate" > 0 := by
    rw [show sample_data.market_data "earnings_growth_rate" = 1/10 from rfl]
    norm_num
  constructor <;> simp [calculate_valuation_ratios, List.lookup, hg]

/-- `_get_recommendation` on the "N/A" rating always falls through to the
generic message: no recommendation table has an "N/A" key. -/
theorem get_recommendation_na (ratio_name : String) :
    get_recommendation ratio_name "N/A" = "Continue monitoring this metric" := by
  rcases eq_or_ne ratio_name "current_ratio" with h | h1
  · subst h; rfl
  rcases eq_or_ne ratio_name "debt_to_equity" with h | h2
  · subst h; rfl
  rcases eq_or_ne ratio_name "roe" with h | h3
  · subst h; rfl
  rcases eq_or_ne ratio_name "pe_ratio" with h | h4
  · subst h; rfl
  have hnone : RECOMMENDATIONS.lookup ratio_name = none := by
    simp [RECOMMENDATIONS, List.lookup, beq_eq_false_iff_ne.mpr h1,
      beq_eq_false_iff_ne.mpr h2, beq_eq_false_iff_ne.mpr h3, beq_eq_false_iff_ne.mpr h4]
  unfold get_recommendation
  rw [hnone]

/-- Claim C3 (amended): for every industry and every ratio name without
an entry in the active benchmark band set, the interpretation's rating
is "N/A" and its recommendation is the generic
"Continue monitoring this metric" fallback — not the empty string. -/
theorem C3_no_benchmark_interpretation (industry ratio_name : String) (value : ℚ)
    (h : ((mkRatioInterpreter industry).benchmarks).lookup ratio_name = none) :
    (interpret_ratio (mkRatioInterpreter industry) ratio_name value).rating = "N/A" ∧
    (interpret_ratio (mkRatioInterpreter industry) ratio_name value).recommendation =
      "Continue monitoring this metric" := by
  unfold interpret_ratio
  rw [h]
  exact ⟨rfl, get_recommendation_na ratio_name⟩

/-- Claim C3 counterexample: roa has no entry in the general band set and
its rating is "N/A", but the recommendation is the generic fallback
string, not the empty string the claim asserts. -/
theorem C3_counterexample :
    ((mkRatioInterpreter "general").benchmarks).lookup "roa" = none ∧
    (interpret_ratio (mkRatioInterpreter "general") "roa" (1/2)).rating = "N/A" ∧
    (interpret_ratio (mkRatioInterpreter "general") "roa" (1/2)).recommendation =
      "Continue monitoring this metric" ∧
    (interpret_ratio (mkRatioInterpreter "general") "roa" (1/2)).recommendation ≠ "" := by
  refine ⟨?_, ?_, ?_, ?_⟩ <;> decide

/-- Concrete instance of the amended C3: roa has no benchmark entry under
the technology band set. -/
theorem C3_no_benchmark_interpretation_witness :
    (interpret_ratio (mkRatioInterpreter "technology") "roa" 7).rating = "N/A" ∧
    (interpret_ratio (mkRatioInterpreter "technology") "roa" 7).recommendation =
      "Continue monitoring this metric" :=
  C3_no_benchmark_interpretation "technology" "roa" 7 (by decide)

/-- Claim C5 (amended): whenever the active band set has a pe_ratio
entry, a strictly positive value is classified into the four ordered
tiers by the undervalued / fair / growth thresholds, but a value ≤ 0
keeps the initial "N/A" rating even though the benchmark entry exists;
so "N/A" does not occur only for missing benchmark entries. -/
theorem C5_pe_ratio_tiers (industry : String) (value : ℚ) (bm : List (String × ℚ))
    (h : ((mkRatioInterpreter industry).benchmarks).lookup "pe_ratio" = some bm) :
    (interpret_ratio (mkRatioInterpreter industry) "pe_ratio" value).rating =
      (if 0 < value then
        if value < tier bm "undervalued" then "Potentially Undervalued"
        else if value < tier bm "fair" then "Fair Value"
        else if value < tier bm "growth" then "Growth Premium"
        else "Expensive"
      else "N/A") := by
  have hno : ¬("pe_ratio" = "current_ratio" ∨ "pe_ratio" = "roe" ∨
      "pe_ratio" = "gross_margin") := by decide
  have hnd : ("pe_ratio" : String) ≠ "debt_to_equity" := by decide
  simp only [interpret_ratio, h, if_neg hno, if_neg hnd,
    if_pos (rfl : ("pe_ratio" : String) = "pe_ratio")]
  simp only [gt_iff_lt]
  split_ifs <;> rfl

/-- Concrete instance of the amended C5: pe_ratio = 20 under the general
band set (undervalued 15, fair 22) rates "Fair Value". -/
theorem C5_pe_ratio_tiers_witness :
    (interpret_ratio (mkRatioInterpreter "general") "pe_ratio" 20).rating =
      "Fair Value" := by
  rw [C5_pe_ratio_tiers "general" 20
    [("undervalued", 15), ("fair", 22), ("growth", 30), ("expensive", 45)] (by decide)]
  decide

/-- Claim C5 counterexample: the general band set does have a pe_ratio
entry, yet the value −1 is rated "N/A" — refuting that "N/A" occurs only
when the ratio has no benchmark entry. -/
theorem C5_counterexample :
    ((mkRatioInterpreter "general").benchmarks).lookup "pe_ratio" ≠ none ∧
    (interpret_ratio (mkRatioInterpreter "general") "pe_ratio" (-1)).rating = "N/A" := by
  constructor <;> decide

/-- Interpreters with the same band set produce interpretations that
agree on every field except possibly the message (which embeds
`self.industry`). -/
theorem interpret_ratio_benchmarks_congr (i1 i2 : RatioInterpreter)
    (hb : i1.benchmarks = i2.benchmarks) (ratio_name : String) (value : ℚ) :
    (interpret_ratio i1 ratio_name value).value =
      (interpret_ratio i2 ratio_name value).value ∧
    (interpret_ratio i1 ratio_name value).rating =
      (interpret_ratio i2 ratio_name value).rating ∧
    (interpret_ratio i1 ratio_name value).recommendation =
      (interpret_ratio i2 ratio_name value).recommendation ∧
    (interpret_ratio i1 ratio_name value).benchmark_comparison =
      (interpret_ratio i2 ratio_name value).benchmark_comparison := by
  cases hL : List.lookup ratio_name i2.benchmarks with
  | none =>
    have hL1 : List.lookup ratio_name i1.benchmarks = none := by rw [hb, hL]
    simp only [interpret_ratio, hL, hL1]
    refine ⟨?_, ?_, ?_, ?_⟩ <;> first | rfl | trivial
  | some bm =>
    have hL1 : List.lookup ratio_name i1.benchmarks = some bm := by rw [hb, hL]
    simp only [interpret_ratio, hL, hL1]
    split_ifs <;> exact ⟨rfl, rfl, rfl, rfl⟩

/-- Claim C7 (amended): benchmark lookup lower-cases the industry (so it
is case-insensitive), every industry name outside the catalog resolves
to the non-empty general fallback band set — never an error — and every
subsequent interpretation under an unknown industry agrees with the one
under the general fallback on value, rating, recommendation and
benchmark band; only the message text differs, because it embeds the
lower-cased industry name verbatim. -/
theorem C7_unknown_industry_fallback (industry ratio_name : String) (value : ℚ)
    (h : BENCHMARKS.lookup (str_lower industry) = none) :
    (mkRatioInterpreter industry).benchmarks = general_benchmarks ∧
    general_benchmarks ≠ [] ∧
    (∀ s t : String, str_lower s = str_lower t →
      mkRatioInterpreter s = mkRatioInterpreter t) ∧
    (interpret_ratio (mkRatioInterpreter industry) ratio_name value).value =
      (interpret_ratio (mkRatioInterpreter "general") ratio_name value).value ∧
    (interpret_ratio (mkRatioInterpreter industry) ratio_name value).rating =
      (interpret_ratio (mkRatioInterpreter "general") ratio_name value).rating ∧
    (interpret_ratio (mkRatioInterpreter industry) ratio_name value).recommendation =
      (interpret_ratio (mkRatioInterpreter "general") ratio_name value).recommendation ∧
    (interpret_ratio (mkRatioInterpreter industry) ratio_name value).benchmark_comparison =
      (interpret_ratio (mkRatioInterpreter "general") ratio_name value).benchmark_comparison := by
  have hb : (mkRatioInterpreter industry).benchmarks = general_benchmarks := by
    simp [mkRatioInterpreter, h]
  have hgen : (mkRatioInterpreter "general").benchmarks = general_benchmarks := by
    have h2 : BENCHMARKS.lookup (str_lower "general") = none := by decide
    simp [mkRatioInterpreter, h2]
  obtain ⟨e1, e2, e3, e4⟩ := interpret_ratio_benchmarks_congr
    (mkRatioInterpreter industry) (mkRatioInterpreter "general")
    (hb.trans hgen.symm) ratio_name value
  refine ⟨hb, by decide, fun s t hst => ?_, e1, e2, e3, e4⟩
  unfold mkRatioInterpreter
  rw [hst]

/-- Claim C7 counterexample: "aerospace" is an unknown industry and does
resolve to the general fallback band set, yet the full interpretation of
pe_ratio = 10 under "aerospace" is not equal to the one under "general":
the message embeds the industry string. -/
theorem C7_counterexample :
    BENCHMARKS.lookup (str_lower "aerospace") = none ∧
    (mkRatioInterpreter "aerospace").benchmarks = general_benchmarks ∧
    interpret_ratio (mkRatioInterpreter "aerospace") "pe_ratio" 10 ≠
      interpret_ratio (mkRatioInterpreter "general") "pe_ratio" 10 ∧
    (interpret_ratio (mkRatioInterpreter "aerospace") "pe_ratio" 10).message =
      "Trading below typical aerospace multiples" ∧
    (interpret_ratio (mkRatioInterpreter "general") "pe_ratio" 10).message =
      "Trading below typical general multiples" := by
  have h : BENCHMARKS.lookup (str_lower "aerospace") = none := by decide
  exact ⟨h, by simp [mkRatioInterpreter, h], by decide, by decide, by decide⟩

/-- Concrete instance of the amended C7: under "aerospace" the band set
is the general fallback and the pe_ratio = 10 rating agrees with the
one under "general". -/
theorem C7_unknown_industry_fallback_witness :
    (mkRatioInterpreter "aerospace").benchmarks = general_benchmarks ∧
    (interpret_ratio (mkRatioInterpreter "aerospace") "pe_ratio" 10).rating =
      (interpret_ratio (mkRatioInterpreter "general") "pe_ratio" 10).rating := by
  obtain ⟨h1, h2, h3, h4, h5, h6, h7⟩ :=
    C7_unknown_industry_fallback "aerospace" "pe_ratio" 10 (by decide)
  exact ⟨h1, h5⟩

/-- The source's `score_map.get(rating, 2)` agrees pointwise with the
fully spelled-out amended map. -/
theorem rating_score_eq (r : String) : rating_score r = amended_rating_score r := by
  rcases eq_or_ne r "Excellent" with h | h1
  · subst h; rfl
  rcases eq_or_ne r "Good" with h | h2
  · subst h; rfl
  rcases eq_or_ne r "Acceptable" with h | h3
  · subst h; rfl
  rcases eq_or_ne r "Poor" with h | h4
  · subst h; rfl
  rcases eq_or_ne r "Fair Value" with h | h5
  · subst h; rfl
  rcases eq_or_ne r "Potentially Undervalued" with h | h6
  · subst h; rfl
  rcases eq_or_ne r "Growth Premium" with h | h7
  · subst h; rfl
  rcases eq_or_ne r "Expensive" with h | h8
  · subst h; rfl
  have hnone : SCORE_MAP.lookup r = none := by
    simp [SCORE_MAP, List.lookup, beq_eq_false_iff_ne.mpr h1, beq_eq_false_iff_ne.mpr h2,
      beq_eq_false_iff_ne.mpr h3, beq_eq_false_iff_ne.mpr h4, beq_eq_false_iff_ne.mpr h5,
      beq_eq_false_iff_ne.mpr h6, beq_eq_false_iff_ne.mpr h7, beq_eq_false_iff_ne.mpr h8]
  rw [rating_score, hnone]
  simp [amended_rating_score, h1, h2, h3, h4, h5, h6, h7, h8]

/-- Claim C8 (amended): the health assessment averages the per-rating
scores under the source's full map — Excellent→4, Good→3, Acceptable→2,
Poor→1, Fair Value→3, Potentially Undervalued→3, Growth Premium→2,
Expensive→1, any other rating→2 — taking the average to be 0 on an empty
rating list, and buckets the average into Excellent (≥3.5), Good (≥2.5),
Fair (≥1.5) and Poor otherwise; an empty rating list yields average 0
and status "Poor". -/
theorem C8_health_assessment (ca : CurrentAnalysis) :
    health_avg ca =
      (if ((collect_ratings ca).map amended_rating_score).length ≠ 0 then
        ((collect_ratings ca).map amended_rating_score).sum /
          ((collect_ratings ca).map amended_rating_score).length
      else 0) ∧
    (collect_ratings ca = [] → health_avg ca = 0) ∧
    (assess_overall_health ca).status =
      (if health_avg ca ≥ 3.5 then "Excellent"
       else if health_avg ca ≥ 2.5 then "Good"
       else if health_avg ca ≥ 1.5 then "Fair"
       else "Poor") ∧
    (collect_ratings ca = [] → (assess_overall_health ca).status = "Poor") := by
  have hmap : rating_score = amended_rating_score := funext rating_score_eq
  have hempty : collect_ratings ca = [] → health_avg ca = 0 := by
    intro h
    simp [health_avg, health_scores, h]
  refine ⟨?_, hempty, ?_, ?_⟩
  · rw [health_avg, health_scores, hmap]
  · simp only [assess_overall_health]
    split_ifs <;> rfl
  · intro h
    have h0 : health_avg ca = 0 := hempty h
    simp only [assess_overall_health, h0]
    norm_num

/-- Claim C8 counterexample: a current analysis whose single rating is
"Expensive" (pe_ratio = 50 in the general band set) has average score 1
and status "Poor" on the code's map, while the claim's enumerated map
omits "Expensive" and so would score it as unmapped → 2, predicting
average 2 (status "Fair"). -/
theorem C8_counterexample :
    (interpret_ratio (mkRatioInterpreter "general") "pe_ratio" 50).rating = "Expensive" ∧
    health_avg [("valuation",
      [("pe_ratio", interpret_ratio (mkRatioInterpreter "general") "pe_ratio" 50)])] = 1 ∧
    claim_health_avg [("valuation",
      [("pe_ratio", interpret_ratio (mkRatioInterpreter "general") "pe_ratio" 50)])] = 2 ∧
    (assess_overall_health [("valuation",
      [("pe_ratio", interpret_ratio (mkRatioInterpreter "general") "pe_ratio" 50)])]).status =
      "Poor" := by
  have hr : (interpret_ratio (mkRatioInterpreter "general") "pe_ratio" 50).rating =
      "Expensive" := by decide
  have h1 : health_avg [("valuation",
      [("pe_ratio", interpret_ratio (mkRatioInterpreter "general") "pe_ratio" 50)])] = 1 := by
    simp [health_avg, health_scores, collect_ratings, hr, rating_score, SCORE_MAP, List.lookup]
  refine ⟨hr, h1, ?_, ?_⟩
  · simp [claim_health_avg, collect_ratings, hr, claim_rating_score]
  · simp only [assess_overall_health, h1]
    norm_num

/-- Concrete instance of the amended C8: the empty current analysis has
average score 0 and status "Poor". -/
theorem C8_health_assessment_witness :
    health_avg ([] : CurrentAnalysis) = 0 ∧
    (assess_overall_health ([] : CurrentAnalysis)).status = "Poor" := by
  obtain ⟨a1, a2, a3, a4⟩ := C8_health_assessment []
  exact ⟨a2 rfl, a4 rfl⟩
